import Mathlib

/-!
Verification development for the `ai-form-validator` repository.

The repository's core is `src/app/api/form-validator/route.ts`:
a `POST` handler (the orchestrator) and `callAi` (the transport:
a retry/backoff/timeout loop around one outbound HTTP call), plus
`extractJsonFromReply` (greedy brace-delimited JSON extraction).

This file is a shallow embedding of that code.  Network I/O is
abstracted by an oracle `Nat → AttemptOutcome` giving the outcome the
environment produces for each attempt index, and `Math.random`'s
jitter draw is abstracted by a function `Nat → Nat` giving the drawn
jitter for each attempt.  Everything else is translated directly from
the source.
-/

set_option maxRecDepth 4000

namespace AiFormValidator

/-- `const DEFAULT_TIMEOUT = 10_000` (per-attempt timeout, ms).  The timeout
itself is abstracted into the oracle (an attempt whose timer fires is an
`AttemptOutcome.timeout`), so this constant is only recorded here. -/
def DEFAULT_TIMEOUT : Nat := 10000

/-- `const MAX_RETRIES = 3` -/
def MAX_RETRIES : Nat := 3

/-- `const BASE_DELAY = 1000` -/
def BASE_DELAY : Nat := 1000

/-- Outcome the environment produces for one attempt of the `fetch` in
`callAi`: an HTTP response (status, body text, value of the
`retry-after` header or `none` when absent), an abort of the attempt by
the timeout timer (`AbortError`), or any other network-level failure
carrying its message. -/
inductive AttemptOutcome where
  | response (status : Nat) (body : String) (retryAfter : Option String)
  | timeout
  | netErr (msg : String)
deriving DecidableEq

/-- The distinct errors `callAi` can throw, by message:
`AI API error <status>: <text>`, `AI request timed out`, a propagated
network-level error, and the post-loop `AI request failed after retries`. -/
inductive CallErr where
  | apiError (status : Nat) (body : String)
  | timedOut
  | netFail (msg : String)
  | afterRetries
deriving DecidableEq

/-- The `message` of the `Error` thrown by `callAi` for each `CallErr`. -/
def errMessage : CallErr → String
  | CallErr.apiError status body => "AI API error " ++ toString status ++ ": " ++ body
  | CallErr.timedOut => "AI request timed out"
  | CallErr.netFail msg => msg
  | CallErr.afterRetries => "AI request failed after retries"

instance : DecidableEq (Except CallErr String) := fun a b =>
  match a, b with
  | Except.ok x, Except.ok y =>
    if h : x = y then isTrue (by rw [h]) else isFalse (by intro hc; cases hc; exact h rfl)
  | Except.error x, Except.error y =>
    if h : x = y then isTrue (by rw [h]) else isFalse (by intro hc; cases hc; exact h rfl)
  | Except.ok _, Except.error _ => isFalse (by intro hc; cases hc)
  | Except.error _, Except.ok _ => isFalse (by intro hc; cases hc)

/-- Observable behaviour of one run of `callAi`: how many `fetch` calls
were made, the argument of each `sleep` between attempts (in order), and
the terminal outcome (returned body text or thrown error). -/
structure CallTrace where
  calls : Nat
  waits : List Int
  result : Except CallErr String
deriving DecidableEq

/-- `ds.foldl`: the natural number denoted by a list of decimal digits. -/
def digitsToNat (ds : List Char) : Nat :=
  ds.foldl (fun n c => n * 10 + (c.toNat - 48)) 0

/-- JS `parseInt(s, 10)`: skip leading whitespace, optional sign, then the
leading run of decimal digits; `NaN` (here `none`) when that run is empty. -/
def parseIntJS (s : String) : Option Int :=
  let cs := s.toList.dropWhile Char.isWhitespace
  match cs with
  | c :: r =>
    if c = '-' then
      let ds := r.takeWhile Char.isDigit
      if ds = [] then none else some (-(digitsToNat ds : Int))
    else if c = '+' then
      let ds := r.takeWhile Char.isDigit
      if ds = [] then none else some ((digitsToNat ds : Int))
    else
      let ds := cs.takeWhile Char.isDigit
      if ds = [] then none else some ((digitsToNat ds : Int))
  | [] => none

/-- The literal characters of the fixed part of the regex
`/retry in ([0-9.]+)s/i`. -/
def hintPat : List Char := ("retry in ").toList

/-- Character class `[0-9.]`. -/
def isDigitOrDot (c : Char) : Bool := c.isDigit || c = '.'

/-- One attempt of the regex `/retry in ([0-9.]+)s/i` anchored at the head
of `cs` (`/i`: letters compared lower-cased).  On success returns the
capture group, i.e. the maximal `[0-9.]+` run, which must be non-empty and
followed by `s` or `S`. -/
def matchHintAt (cs : List Char) : Option (List Char) :=
  if hintPat.isPrefixOf (cs.map Char.toLower) then
    let rest := cs.drop hintPat.length
    let run := rest.takeWhile isDigitOrDot
    let after := rest.drop run.length
    if run ≠ [] ∧ (after.head? = some 's' ∨ after.head? = some 'S') then some run
    else none
  else none

/-- Leftmost-match search of `/retry in ([0-9.]+)s/i`: try the pattern at
each start position in order. -/
def findRetryHintAux : List Char → Option (List Char)
  | [] => none
  | c :: rest =>
    match matchHintAt (c :: rest) with
    | some cap => some cap
    | none => findRetryHintAux rest

/-- `text.match(/retry in ([0-9.]+)s/i)`, returning the capture group. -/
def findRetryHint (s : String) : Option (List Char) :=
  findRetryHintAux s.toList

/-- JS `parseFloat` restricted to a `[0-9.]+` capture: leading digits,
optionally a dot and more digits; `NaN` (`none`) when no digit was
consumed.  The value is returned exactly as `(n, k)` denoting `n / 10^k`. -/
def parseFloatDD (cs : List Char) : Option (Nat × Nat) :=
  let d1 := cs.takeWhile Char.isDigit
  let r1 := cs.drop d1.length
  let d2 :=
    match r1 with
    | c :: r => if c = '.' then r.takeWhile Char.isDigit else []
    | [] => []
  if d1 = [] ∧ d2 = [] then none
  else some (digitsToNat (d1 ++ d2), d2.length)

/-- `Math.ceil(parsed * 1000)` for the exact value `n / 10^k`. -/
def ceilTimes1000 (nk : Nat × Nat) : Nat :=
  (nk.1 * 1000 + 10 ^ nk.2 - 1) / 10 ^ nk.2

/-- The wait computation of the 429/503 branch of `callAi`, in source
order: start from the jittered exponential fallback
`BASE_DELAY * 2 ** attempt + jitter`, overwrite it with
`parseInt(retryAfter) * 1000` when the `retry-after` header is a truthy
string that parses, and finally overwrite with
`Math.ceil(parseFloat(hint) * 1000)` when the body carries a parseable
`retry in <seconds>s` hint. -/
def computeWaitMs (attempt : Nat) (retryAfter : Option String) (bodyText : String)
    (jitter : Nat) : Int :=
  let w0 : Int := ((BASE_DELAY * 2 ^ attempt + jitter : Nat) : Int)
  let w1 : Int :=
    match retryAfter with
    | some ra =>
      if ra = "" then w0
      else
        match parseIntJS ra with
        | some n => n * 1000
        | none => w0
    | none => w0
  match findRetryHint bodyText with
  | some cap =>
    match parseFloatDD cap with
    | some nk => ((ceilTimes1000 nk : Nat) : Int)
    | none => w1
  | none => w1

/-- Spec-side restatement of the body-hint wait: the wait suggested by a
`retry in <seconds>s` hint in the response body, when present and
parseable. -/
def hintWaitMs (bodyText : String) : Option Nat :=
  (findRetryHint bodyText).bind (fun cap => (parseFloatDD cap).map ceilTimes1000)

/-- Spec-side restatement of the header wait: `seconds * 1000` when the
`Retry-After` header is present, non-empty and numeric. -/
def headerWaitMs (retryAfter : Option String) : Option Int :=
  match retryAfter with
  | some ra => if ra = "" then none else (parseIntJS ra).map (fun n => n * 1000)
  | none => none

/-- The `for (let attempt = 0; attempt <= MAX_RETRIES; attempt++)` loop of
`callAi`, with `fuel` the number of loop iterations still allowed
(`MAX_RETRIES + 1 - attempt` at the top-level call).  Branches, in source
order, for the outcome of the attempt's `fetch`:
* `res.ok` (2xx): return the body text;
* 429/503 on a non-final attempt: sleep `computeWaitMs` and continue;
* any other non-2xx (or 429/503 on the final attempt): `throw` the
  `AI API error` — which the function's own `catch` receives, so on a
  non-final attempt it sleeps the jittered exponential backoff and
  continues, and only on the final attempt propagates the error;
* `AbortError` (timeout): sleep the un-jittered exponential backoff and
  continue, or throw `AI request timed out` on the final attempt;
* any other failure: sleep the jittered backoff and continue, or
  propagate on the final attempt.
Exhausted fuel is the fall-through to the post-loop
`throw new Error("AI request failed after retries")`. -/
def callAiAux (oracle : Nat → AttemptOutcome) (jitter : Nat → Nat) :
    Nat → Nat → CallTrace
  | _, 0 => { calls := 0, waits := [], result := Except.error CallErr.afterRetries }
  | attempt, fuel + 1 =>
    match oracle attempt with
    | AttemptOutcome.response status body retryAfter =>
      if 200 ≤ status ∧ status ≤ 299 then
        { calls := 1, waits := [], result := Except.ok body }
      else if (status = 429 ∨ status = 503) ∧ attempt < MAX_RETRIES then
        let rest := callAiAux oracle jitter (attempt + 1) fuel
        { calls := rest.calls + 1,
          waits := computeWaitMs attempt retryAfter body (jitter attempt) :: rest.waits,
          result := rest.result }
      else if attempt < MAX_RETRIES then
        let rest := callAiAux oracle jitter (attempt + 1) fuel
        { calls := rest.calls + 1,
          waits := ((BASE_DELAY * 2 ^ attempt + jitter attempt : Nat) : Int) :: rest.waits,
          result := rest.result }
      else
        { calls := 1, waits := [], result := Except.error (CallErr.apiError status body) }
    | AttemptOutcome.timeout =>
      if attempt < MAX_RETRIES then
        let rest := callAiAux oracle jitter (attempt + 1) fuel
        { calls := rest.calls + 1,
          waits := ((BASE_DELAY * 2 ^ attempt : Nat) : Int) :: rest.waits,
          result := rest.result }
      else
        { calls := 1, waits := [], result := Except.error CallErr.timedOut }
    | AttemptOutcome.netErr msg =>
      if attempt < MAX_RETRIES then
        let rest := callAiAux oracle jitter (attempt + 1) fuel
        { calls := rest.calls + 1,
          waits := ((BASE_DELAY * 2 ^ attempt + jitter attempt : Nat) : Int) :: rest.waits,
          result := rest.result }
      else
        { calls := 1, waits := [], result := Except.error (CallErr.netFail msg) }

/-- `callAi(fullPrompt, apiKey)`.  The prompt and key only shape the
outbound request, whose effect is abstracted by the oracle, so they are
carried but unused. -/
def callAi (_fullPrompt _apiKey : String) (oracle : Nat → AttemptOutcome)
    (jitter : Nat → Nat) : CallTrace :=
  callAiAux oracle jitter 0 (MAX_RETRIES + 1)

/-- JavaScript values produced by `JSON.parse`.  Numbers are kept exact as
rationals (the source never does arithmetic on parsed numbers, so IEEE
rounding is irrelevant to every claim); duplicate object keys are kept in
source order and reads take the last occurrence, matching JS assignment
order. -/
inductive JsVal where
  | null : JsVal
  | bool (b : Bool) : JsVal
  | num (q : Rat) : JsVal
  | str (s : String) : JsVal
  | arr (items : List JsVal) : JsVal
  | obj (fields : List (String × JsVal)) : JsVal

/-- JSON insignificant whitespace. -/
def isJsonWs (c : Char) : Bool := c = ' ' ∨ c = '\t' ∨ c = '\n' ∨ c = '\r'

def skipWs (cs : List Char) : List Char := cs.dropWhile isJsonWs

/-- Value of one hexadecimal digit. -/
def hexDigitVal (c : Char) : Option Nat :=
  if c.isDigit then some (c.toNat - 48)
  else if 'a' ≤ c ∧ c ≤ 'f' then some (c.toNat - 87)
  else if 'A' ≤ c ∧ c ≤ 'F' then some (c.toNat - 55)
  else none

/-- JSON string body after the opening quote: content characters and the
remainder after the closing quote.  Escapes are decoded; a raw control
character is a parse error. -/
def parseStringBody : Nat → List Char → Option (List Char × List Char)
  | 0, _ => none
  | _, [] => none
  | fuel + 1, c :: cs =>
    if c = '\"' then some ([], cs)
    else if c = '\\' then
      match cs with
      | [] => none
      | e :: cs2 =>
        let esc : Option (Char × List Char) :=
          if e = '\"' ∨ e = '\\' ∨ e = '/' then some (e, cs2)
          else if e = 'b' then some (Char.ofNat 8, cs2)
          else if e = 'f' then some (Char.ofNat 12, cs2)
          else if e = 'n' then some (Char.ofNat 10, cs2)
          else if e = 'r' then some (Char.ofNat 13, cs2)
          else if e = 't' then some (Char.ofNat 9, cs2)
          else if e = 'u' then
            match cs2 with
            | h1 :: h2 :: h3 :: h4 :: cs3 =>
              match hexDigitVal h1, hexDigitVal h2, hexDigitVal h3, hexDigitVal h4 with
              | some a, some b, some c3, some d =>
                some (Char.ofNat (((a * 16 + b) * 16 + c3) * 16 + d), cs3)
              | _, _, _, _ => none
            | _ => none
          else none
        match esc with
        | some (ch, rest) => (parseStringBody fuel rest).map (fun pr => (ch :: pr.1, pr.2))
        | none => none
    else if c.toNat < 32 then none
    else (parseStringBody fuel cs).map (fun pr => (c :: pr.1, pr.2))

/-- JSON fraction part: either absent, or a dot followed by at least one
digit. -/
def parseFrac : List Char → Option (List Char × List Char)
  | c :: r =>
    if c = '.' then
      let fd := r.takeWhile Char.isDigit
      if fd = [] then none else some (fd, r.dropWhile Char.isDigit)
    else some ([], c :: r)
  | [] => some ([], [])

/-- JSON exponent part: either absent, or `e`/`E`, an optional sign, and at
least one digit. -/
def parseExp : List Char → Option (Int × List Char)
  | c :: r =>
    if c = 'e' ∨ c = 'E' then
      let sr : Int × List Char :=
        match r with
        | s :: rr => if s = '+' then (1, rr) else if s = '-' then (-1, rr) else (1, s :: rr)
        | [] => (1, [])
      let ds := sr.2.takeWhile Char.isDigit
      if ds = [] then none
      else some (sr.1 * (digitsToNat ds : Int), sr.2.dropWhile Char.isDigit)
    else some (0, c :: r)
  | [] => some (0, [])

/-- JSON number: optional minus, integer part (`0` or a non-zero-led digit
run), optional fraction, optional exponent. -/
def parseNumber (cs : List Char) : Option (JsVal × List Char) :=
  let sgncs : Bool × List Char :=
    match cs with
    | c :: r => if c = '-' then (true, r) else (false, c :: r)
    | [] => (false, [])
  match sgncs.2 with
  | [] => none
  | d :: rest0 =>
    if d.isDigit then
      let ipr : List Char × List Char :=
        if d = '0' then ([d], rest0)
        else ((d :: rest0).takeWhile Char.isDigit, (d :: rest0).dropWhile Char.isDigit)
      match parseFrac ipr.2 with
      | none => none
      | some (fpart, r3) =>
        match parseExp r3 with
        | none => none
        | some (ex, r4) =>
          let m : Nat := digitsToNat (ipr.1 ++ fpart)
          let base : Rat := (m : Rat) / ((10 ^ fpart.length : Nat) : Rat)
          let q : Rat :=
            if 0 ≤ ex then base * ((10 ^ ex.toNat : Nat) : Rat)
            else base / ((10 ^ (-ex).toNat : Nat) : Rat)
          some (JsVal.num (if sgncs.1 then -q else q), r4)
    else none

mutual

/-- JSON value (whitespace-tolerant, fuelled recursive descent). -/
def parseVal : Nat → List Char → Option (JsVal × List Char)
  | 0, _ => none
  | fuel + 1, cs =>
    match skipWs cs with
    | [] => none
    | c :: rest =>
      if c = '\"' then
        (parseStringBody fuel rest).map (fun pr => (JsVal.str pr.1.asString, pr.2))
      else if c = '\x7b' then parseObjBody fuel (skipWs rest) [] true
      else if c = '[' then parseArrBody fuel (skipWs rest) [] true
      else if c = 't' then
        match rest with
        | 'r' :: 'u' :: 'e' :: r => some (JsVal.bool true, r)
        | _ => none
      else if c = 'f' then
        match rest with
        | 'a' :: 'l' :: 's' :: 'e' :: r => some (JsVal.bool false, r)
        | _ => none
      else if c = 'n' then
        match rest with
        | 'u' :: 'l' :: 'l' :: r => some (JsVal.null, r)
        | _ => none
      else parseNumber (c :: rest)

/-- JSON array items after `[` (whitespace already skipped).  `first` is
true when no item has been consumed yet, so `]` closes an empty array only
there (a trailing comma is an error). -/
def parseArrBody : Nat → List Char → List JsVal → Bool → Option (JsVal × List Char)
  | 0, _, _, _ => none
  | fuel + 1, cs, acc, first =>
    match cs with
    | [] => none
    | c :: r =>
      if c = ']' ∧ first then some (JsVal.arr [], r)
      else
        match parseVal fuel (c :: r) with
        | none => none
        | some (v, r1) =>
          match skipWs r1 with
          | ',' :: r2 => parseArrBody fuel (skipWs r2) (acc ++ [v]) false
          | ']' :: r2 => some (JsVal.arr (acc ++ [v]), r2)
          | _ => none

/-- JSON object members after the opening brace (whitespace already
skipped); same `first` discipline as `parseArrBody`. -/
def parseObjBody : Nat → List Char → List (String × JsVal) → Bool →
    Option (JsVal × List Char)
  | 0, _, _, _ => none
  | fuel + 1, cs, acc, first =>
    match cs with
    | [] => none
    | c :: r =>
      if c = '\x7d' ∧ first then some (JsVal.obj [], r)
      else if c = '\"' then
        match parseStringBody fuel r with
        | none => none
        | some (kcs, r1) =>
          match skipWs r1 with
          | ':' :: r2 =>
            match parseVal fuel (skipWs r2) with
            | none => none
            | some (v, r3) =>
              match skipWs r3 with
              | ',' :: r4 => parseObjBody fuel (skipWs r4) (acc ++ [(kcs.asString, v)]) false
              | '\x7d' :: r4 => some (JsVal.obj (acc ++ [(kcs.asString, v)]), r4)
              | _ => none
          | _ => none
      else none

end

/-- `JSON.parse`: a complete value with only whitespace around it;
`none` models the thrown `SyntaxError`. -/
def jsonParse (s : String) : Option JsVal :=
  match parseVal (s.length + 1) s.toList with
  | some (v, r) => if skipWs r = [] then some v else none
  | none => none

/-- Property read on a JS object: the last binding of the key (later
duplicate keys overwrite earlier ones). -/
def jsObjGet (kvs : List (String × JsVal)) (k : String) : Option JsVal :=
  kvs.foldl (fun acc p => if p.1 = k then some p.2 else acc) none

/-- Optional-chained property access `v?.k`: `undefined` (`none`) when the
receiver is `null`/`undefined` or not an object with that key. -/
def jsOptField : Option JsVal → String → Option JsVal
  | some (JsVal.obj kvs), k => jsObjGet kvs k
  | _, _ => none

/-- Optional-chained index access `v?.[i]`. -/
def jsOptIndex : Option JsVal → Nat → Option JsVal
  | some (JsVal.arr items), i => items.get? i
  | _, _ => none

/-- Index (from the head of the whole list) of the first occurrence of a
character. -/
def firstIdxOf (c : Char) : List Char → Option Nat
  | [] => none
  | x :: xs => if x = c then some 0 else (firstIdxOf c xs).map (fun i => i + 1)

/-- Index of the last occurrence of a character. -/
def lastIdxOf (c : Char) : List Char → Option Nat
  | [] => none
  | x :: xs =>
    match lastIdxOf c xs with
    | some j => some (j + 1)
    | none => if x = c then some 0 else none

/-- The matcher for the regex `\x7b[\s\S]*\x7d` (an opening brace, any
characters, a closing brace): try each start position left to right; at an
opening brace the greedy `[\s\S]*` runs to the end and backtracks to the
last closing brace of the whole input, so the match at position `i`
succeeds exactly when that last closing brace lies beyond `i`.
`lastClose` is the index of the last closing brace of the input (fixed
throughout the scan); the result is the span `(start, end)` of the
leftmost match. -/
def braceScanAux (lastClose : Option Nat) : List Char → Nat → Option (Nat × Nat)
  | [], _ => none
  | c :: rest, i =>
    if c = '\x7b' then
      match lastClose with
      | some j => if i < j then some (i, j) else braceScanAux lastClose rest (i + 1)
      | none => braceScanAux lastClose rest (i + 1)
    else braceScanAux lastClose rest (i + 1)

/-- `reply.match(/\x7b[\s\S]*\x7d/)`: the matched substring, when any. -/
def regexBraceMatch (s : String) : Option String :=
  match braceScanAux (lastIdxOf '\x7d' s.toList) s.toList 0 with
  | some (i, j) => some (((s.toList.drop i).take (j - i + 1)).asString)
  | none => none

/-- `extractJsonFromReply`: brace-delimited greedy extraction followed by
`JSON.parse`; `null` (`none`) when there is no match or the parse throws. -/
def extractJsonFromReply (reply : String) : Option JsVal :=
  (regexBraceMatch reply).bind jsonParse

/-- Step (a) of the handler's reply interpretation:
`JSON.parse(text)` and the optional-chained descent
`apiJson?.candidates?.[0]?.content?.parts?.[0]?.text ?? text`, falling
back to the raw text when the parse throws or the path is
null/undefined. -/
def replyValOf (text : String) : JsVal :=
  match jsonParse text with
  | none => JsVal.str text
  | some api =>
    let c0 := jsOptIndex (jsOptField (some api) "candidates") 0
    let parts := jsOptField (jsOptField c0 "content") "parts"
    let t := jsOptField (jsOptIndex parts 0) "text"
    match t with
    | none => JsVal.str text
    | some (JsVal.null) => JsVal.str text
    | some v => v

/-- The environment variables the route reads. -/
structure Env where
  useMockAi : Option String
  geminiKey : Option String
  googleGeminiKey : Option String

/-- One HTTP response of the route plus the number of outbound calls the
request caused (0 when `callAi` was never invoked). -/
structure PostResult where
  status : Nat
  body : JsVal
  outboundCalls : Nat

/-- `NextResponse.json({ error: msg }, ...)` bodies. -/
def errorBody (msg : String) : JsVal := JsVal.obj [("error", JsVal.str msg)]

/-- An apostrophe (the scanner-unfriendly character of the 400 message). -/
def apoStr : String := String.singleton (Char.ofNat 39)

/-- The exact 400 message `Missing or invalid 'prompt' in request body`. -/
def promptErrMsg : String :=
  "Missing or invalid " ++ apoStr ++ "prompt" ++ apoStr ++ " in request body"

/-- The fixed canned `ParsedResult` returned in mock mode. -/
def mockResult : JsVal :=
  JsVal.obj
    [("validationRules", JsVal.arr [JsVal.str "email: required, must be a valid email"]),
     ("accessibility", JsVal.arr [JsVal.str "Ensure all form fields have associated labels"]),
     ("uxSuggestions", JsVal.arr [JsVal.str "Show inline validation messages as user types"]),
     ("edgeCases", JsVal.arr [JsVal.str "Empty optional fields with default values"])]

/-- The fixed system instruction prepended to the caller's form text. -/
def systemPrompt : String :=
  "\nYou are a senior frontend engineer specializing in forms, UX, and accessibility.\n\nAnalyze the provided form definition and return STRICT JSON with:\n- validationRules: array of strings\n- accessibility: array of strings\n- uxSuggestions: array of strings\n- edgeCases: array of strings\n\nDo NOT include explanations or markdown.\nReturn ONLY valid JSON.\n"

/-- `const fullPrompt = ...` -/
def mkFullPrompt (p : String) : String := systemPrompt ++ "\nForm:\n" ++ p

/-- The `!prompt || typeof prompt !== "string"` guard, inverted: `some p`
exactly when `body?.prompt` is a truthy string (absent, null, non-string
and the empty string all fail the guard). -/
def promptOf (body : JsVal) : Option String :=
  match jsOptField (some body) "prompt" with
  | some (JsVal.str p) => if p = "" then none else some p
  | _ => none

/-- `process.env.USE_MOCK_AI === "1" || process.env.USE_MOCK_AI === "true"` -/
def useMockOf (env : Env) : Bool :=
  env.useMockAi = some "1" ∨ env.useMockAi = some "true"

/-- `process.env.GEMINI_API_KEY ?? process.env.GOOGLE_GEMINI_API_KEY` -/
def keyOf (env : Env) : Option String :=
  env.geminiKey <|> env.googleGeminiKey

/-- `message.includes(needle)` -/
def strIncludes (hay needle : String) : Bool :=
  (List.range (hay.toList.length + 1)).any
    (fun i => needle.toList.isPrefixOf (hay.toList.drop i))

/-- The success half of the handler's reply interpretation: envelope
descent, `extractJsonFromReply`, and the `Invalid AI response format`
fallback that echoes the reply under `raw`.  A non-string reply value
makes `reply.match` throw a `TypeError`, which the top-level catch maps
to the generic 500. -/
def respondOk (calls : Nat) (text : String) : PostResult :=
  match replyValOf text with
  | JsVal.str reply =>
    match extractJsonFromReply reply with
    | none =>
      { status := 500,
        body := JsVal.obj [("error", JsVal.str "Invalid AI response format"),
                           ("raw", JsVal.str reply)],
        outboundCalls := calls }
    | some extracted => { status := 200, body := extracted, outboundCalls := calls }
  | _ => { status := 500, body := errorBody "Server error", outboundCalls := calls }

/-- The top-level catch of the handler: classify the thrown error by its
message. -/
def respondErr (calls : Nat) (msg : String) : PostResult :=
  if strIncludes msg "timed out" then
    { status := 504, body := errorBody "AI request timed out", outboundCalls := calls }
  else if strIncludes msg "AI API error" then
    { status := 502,
      body := JsVal.obj [("error", JsVal.str "AI API error"), ("details", JsVal.str msg)],
      outboundCalls := calls }
  else { status := 500, body := errorBody "Server error", outboundCalls := calls }

/-- Dispatch on the outcome of `callAi`. -/
def respondFromTrace (t : CallTrace) : PostResult :=
  match t.result with
  | Except.ok text => respondOk t.calls text
  | Except.error e => respondErr t.calls (errMessage e)

/-- The handler once a valid prompt is in hand: mock short-circuit, key
check, transport, interpretation. -/
def postWithPrompt (env : Env) (oracle : Nat → AttemptOutcome) (jitter : Nat → Nat)
    (p : String) : PostResult :=
  if useMockOf env then { status := 200, body := mockResult, outboundCalls := 0 }
  else
    match keyOf env with
    | none => { status := 500, body := errorBody "Server misconfiguration", outboundCalls := 0 }
    | some key =>
      if key = "" then
        { status := 500, body := errorBody "Server misconfiguration", outboundCalls := 0 }
      else respondFromTrace (callAi (mkFullPrompt p) key oracle jitter)

/-- `POST(req)`.  `bodyText` is the raw request body; `req.json()` is
`jsonParse`, and when it throws, the `SyntaxError` lands in the top-level
catch, which classifies it by its `message` like any other error.  That
message text is runtime-defined — on current V8/Node it embeds a snippet
of the rejected body (`Unexpected token 'x', "<snippet>" is not valid
JSON`), on older runtimes it does not — so it is supplied as the
environment input `syntaxMsg`, giving the runtime's `SyntaxError` message
for each rejected body. -/
def POST (env : Env) (oracle : Nat → AttemptOutcome) (jitter : Nat → Nat)
    (syntaxMsg : String → String) (bodyText : String) : PostResult :=
  match jsonParse bodyText with
  | none => respondErr 0 (syntaxMsg bodyText)
  | some body =>
    match promptOf body with
    | none => { status := 400, body := errorBody promptErrMsg, outboundCalls := 0 }
    | some p => postWithPrompt env oracle jitter p

/-! Concrete fixtures used by the theorems below. -/

def jitterZero : Nat → Nat := fun _ => 0

def jitterSeven : Nat → Nat := fun _ => 7

def oracle403 : Nat → AttemptOutcome := fun _ => AttemptOutcome.response 403 "Forbidden" none

def oracle403then200 : Nat → AttemptOutcome := fun a =>
  if a = 0 then AttemptOutcome.response 403 "Forbidden" none
  else AttemptOutcome.response 200 "ok-body" none

def oracle503 : Nat → AttemptOutcome := fun _ =>
  AttemptOutcome.response 503 "unavailable" none

def oracle553 : Nat → AttemptOutcome := fun a =>
  if a < 2 then AttemptOutcome.response 503 "unavailable" none
  else AttemptOutcome.response 200 "final-body" none

def oracleTimeout : Nat → AttemptOutcome := fun _ => AttemptOutcome.timeout

def oracle2xx : Nat → AttemptOutcome := fun _ => AttemptOutcome.response 200 "hello" none

def oracle200NoBraces : Nat → AttemptOutcome := fun _ =>
  AttemptOutcome.response 200 "no braces at all" none

def envKeyed : Env := { useMockAi := none, geminiKey := some "k", googleGeminiKey := none }

def envMock : Env := { useMockAi := some "1", geminiKey := none, googleGeminiKey := none }

/-- A request body carrying the valid prompt `"x"`. -/
def promptBody : String := "\x7b\"prompt\":\"x\"\x7d"

/-- A legacy-runtime `SyntaxError` message (old V8 format): no body
snippet, so it can match neither `timed out` nor `AI API error`. -/
def syntaxMsgLegacy : String → String := fun _ =>
  "Unexpected token o in JSON at position 1"

/-- The current V8/Node `SyntaxError` message for the raw body
`timed out`: it embeds the body snippet. -/
def v8MsgTimedOut : String :=
  "Unexpected token " ++ apoStr ++ "i" ++ apoStr ++ ", \"timed out\" is not valid JSON"

/-- A current-V8 runtime environment, recorded at the body `timed out`. -/
def syntaxMsgV8TimedOut : String → String := fun _ => v8MsgTimedOut

/-- The retry loop never falls through to the post-loop throw: with the
fuel/attempt accounting of the top-level call, the final attempt
(`attempt = MAX_RETRIES`) terminates in every branch. -/
theorem callAiAux_ne_afterRetries (oracle : Nat → AttemptOutcome) (jitter : Nat → Nat) :
    ∀ fuel attempt, attempt + fuel = MAX_RETRIES + 1 → 1 ≤ fuel →
      (callAiAux oracle jitter attempt fuel).result ≠ Except.error CallErr.afterRetries := by
  intro fuel
  induction fuel with
  | zero => intro attempt _ h1; exact absurd h1 (by omega)
  | succ f ih =>
    intro attempt hsum _
    have hrec : ∀ attempt2, attempt < MAX_RETRIES → attempt2 = attempt + 1 →
        (callAiAux oracle jitter attempt2 f).result ≠ Except.error CallErr.afterRetries := by
      intro attempt2 hlt he
      subst he
      exact ih (attempt + 1) (by omega) (by unfold MAX_RETRIES at hsum hlt; omega)
    simp only [callAiAux]
    cases ho : oracle attempt with
    | response status body retryAfter =>
      by_cases h2 : 200 ≤ status ∧ status ≤ 299
      · simp [h2]
      · by_cases h3 : (status = 429 ∨ status = 503) ∧ attempt < MAX_RETRIES
        · simp only [if_neg h2, if_pos h3]
          exact hrec (attempt + 1) h3.2 rfl
        · by_cases h4 : attempt < MAX_RETRIES
          · simp only [if_neg h2, if_neg h3, if_pos h4]
            exact hrec (attempt + 1) h4 rfl
          · simp [h2, h3, h4]
    | timeout =>
      by_cases h4 : attempt < MAX_RETRIES
      · simp only [if_pos h4]
        exact hrec (attempt + 1) h4 rfl
      · simp [h4]
    | netErr msg =>
      by_cases h4 : attempt < MAX_RETRIES
      · simp only [if_pos h4]
        exact hrec (attempt + 1) h4 rfl
      · simp [h4]

/-- C1: the claim says a non-2xx status other than 429/503 (e.g. 403) makes
Transport fail immediately with exactly one outbound call.  The code
instead throws `AI API error 403: ...` inside its own `try`, so the
generic `catch` retries it like a network failure: a persistent 403 makes
all 4 calls (with jittered backoff waits) before the error — still
carrying the status and body, and still mapped to a 502 by the handler —
and a 403 on the first attempt followed by a 200 even succeeds after 2
calls. -/
theorem c1_nonretryable_status_is_retried :
    callAi "p" "k" oracle403 jitterZero =
      { calls := 4, waits := [1000, 2000, 4000],
        result := Except.error (CallErr.apiError 403 "Forbidden") } ∧
    (callAi "p" "k" oracle403then200 jitterZero).calls = 2 ∧
    (callAi "p" "k" oracle403then200 jitterZero).result = Except.ok "ok-body" ∧
    POST envKeyed oracle403 jitterZero syntaxMsgLegacy promptBody =
      { status := 502,
        body := JsVal.obj [("error", JsVal.str "AI API error"),
                           ("details", JsVal.str "AI API error 403: Forbidden")],
        outboundCalls := 4 } :=
  ⟨rfl, rfl, rfl, rfl⟩

/-- C2 counterexample: a run in which all `MAX_RETRIES + 1` attempts
complete without a 2xx (everything is a 503) fails with the final
attempt's specific error `AI API error 503: unavailable`, not with a
generic `request failed after retries` message. -/
theorem c2_counterexample :
    (callAi "p" "k" oracle503 jitterZero).calls = 4 ∧
    (callAi "p" "k" oracle503 jitterZero).result =
      Except.error (CallErr.apiError 503 "unavailable") ∧
    errMessage (CallErr.apiError 503 "unavailable") ≠ "request failed after retries" ∧
    errMessage (CallErr.apiError 503 "unavailable") ≠ "AI request failed after retries" :=
  ⟨rfl, rfl, by decide, by decide⟩

/-- C2 amended: the post-loop generic `AI request failed after retries`
error is unreachable — every run of `callAi` terminates, on the final
attempt at the latest, with a 2xx body or with the final attempt's
specific error. -/
theorem c2_generic_error_unreachable (fp key : String) (oracle : Nat → AttemptOutcome)
    (jitter : Nat → Nat) :
    (callAi fp key oracle jitter).result ≠ Except.error CallErr.afterRetries :=
  callAiAux_ne_afterRetries oracle jitter (MAX_RETRIES + 1) 0 (by omega) (by omega)

theorem c2_generic_error_unreachable_witness :
    (callAi "p" "k" oracle503 jitterZero).result ≠ Except.error CallErr.afterRetries :=
  c2_generic_error_unreachable "p" "k" oracle503 jitterZero

/-- C3: whenever the parsed request body has no `prompt` field that is a
non-empty string (absent, null, non-string, or the empty string), the
handler returns 400 with the exact error body and makes no outbound
call. -/
theorem c3_invalid_prompt_400 (env : Env) (oracle : Nat → AttemptOutcome)
    (jitter : Nat → Nat) (syntaxMsg : String → String) (bodyText : String) (v : JsVal)
    (hparse : jsonParse bodyText = some v)
    (hbad : ∀ p : String, jsOptField (some v) "prompt" = some (JsVal.str p) → p = "") :
    POST env oracle jitter syntaxMsg bodyText =
      { status := 400, body := errorBody promptErrMsg, outboundCalls := 0 } := by
  have hp : promptOf v = none := by
    unfold promptOf
    cases hf : jsOptField (some v) "prompt" with
    | none => rfl
    | some w =>
      cases w with
      | null => rfl
      | bool b => rfl
      | num q => rfl
      | str p => simp [hbad p hf]
      | arr l => rfl
      | obj l => rfl
  simp only [POST, hparse, hp]

theorem c3_invalid_prompt_400_witness :
    POST envKeyed oracle403 jitterZero syntaxMsgLegacy "\x7b\x7d" =
      { status := 400, body := errorBody promptErrMsg, outboundCalls := 0 } :=
  c3_invalid_prompt_400 envKeyed oracle403 jitterZero syntaxMsgLegacy "\x7b\x7d"
    (JsVal.obj []) rfl (by intro p h; simp [jsOptField, jsObjGet] at h)

/-- C4: with the mock flag enabled, any request carrying a valid prompt —
whatever its content — gets the fixed canned `ParsedResult` with no
outbound call. -/
theorem c4_mock_mode (env : Env) (oracle : Nat → AttemptOutcome) (jitter : Nat → Nat)
    (syntaxMsg : String → String) (bodyText p : String) (v : JsVal)
    (hmock : useMockOf env = true)
    (hparse : jsonParse bodyText = some v)
    (hfield : jsOptField (some v) "prompt" = some (JsVal.str p))
    (hp : p ≠ "") :
    POST env oracle jitter syntaxMsg bodyText =
      { status := 200, body := mockResult, outboundCalls := 0 } := by
  have hpr : promptOf v = some p := by
    unfold promptOf
    rw [hfield]
    simp [hp]
  simp only [POST, hparse, hpr, postWithPrompt, hmock, if_true]

theorem c4_mock_mode_witness :
    POST envMock oracle403 jitterZero syntaxMsgLegacy promptBody =
      { status := 200, body := mockResult, outboundCalls := 0 } :=
  c4_mock_mode envMock oracle403 jitterZero syntaxMsgLegacy promptBody "x"
    (JsVal.obj [("prompt", JsVal.str "x")]) rfl rfl rfl (by decide)

/-- The source-order wait computation (default, overwritten by header,
overwritten by hint) equals the spec's precedence form:
body hint first, else header, else jittered exponential fallback. -/
theorem computeWaitMs_eq (a : Nat) (ra : Option String) (bodyText : String) (j : Nat) :
    computeWaitMs a ra bodyText j =
      match hintWaitMs bodyText with
      | some m => (m : Int)
      | none =>
        match headerWaitMs ra with
        | some mi => mi
        | none => ((BASE_DELAY * 2 ^ a + j : Nat) : Int) := by
  unfold computeWaitMs hintWaitMs headerWaitMs
  cases hfr : findRetryHint bodyText with
  | some cap =>
    cases hpf : parseFloatDD cap with
    | some nk => simp [hpf]
    | none =>
      cases ra with
      | none => simp [hpf]
      | some raStr =>
        by_cases hre : raStr = ""
        · simp [hpf, hre]
        · cases hpi : parseIntJS raStr with
          | some n => simp [hpf, hre, hpi]
          | none => simp [hpf, hre, hpi]
  | none =>
    cases ra with
    | none => simp
    | some raStr =>
      by_cases hre : raStr = ""
      · simp [hre]
      · cases hpi : parseIntJS raStr with
        | some n => simp [hre, hpi]
        | none => simp [hre, hpi]

/-- C5: the wait before the next attempt after a 429/503 on a non-final
attempt obeys the precedence body-hint > `Retry-After` header >
exponential fallback: a parseable `retry in <seconds>s` hint in the body
gives `ceil(seconds * 1000)` ms regardless of the header (`retry in 5.5s`
gives 5500), else a truthy numeric `Retry-After` header gives
`seconds * 1000` ms (`Retry-After: 2` gives 2000, not the fallback), else
the wait is `1000 * 2^attempt + jitter` ms; and `callAiAux` sleeps exactly
`computeWaitMs` before retrying such an attempt. -/
theorem c5_wait_precedence (a : Nat) (ra : Option String) (bodyText : String) (j : Nat) :
    (∀ m : Nat, hintWaitMs bodyText = some m →
      computeWaitMs a ra bodyText j = (m : Int)) ∧
    (hintWaitMs bodyText = none → ∀ mi : Int, headerWaitMs ra = some mi →
      computeWaitMs a ra bodyText j = mi) ∧
    (hintWaitMs bodyText = none → headerWaitMs ra = none →
      computeWaitMs a ra bodyText j = ((BASE_DELAY * 2 ^ a + j : Nat) : Int)) ∧
    hintWaitMs "retry in 5.5s" = some 5500 ∧
    headerWaitMs (some "2") = some 2000 ∧
    (∀ (oracle : Nat → AttemptOutcome) (jitter : Nat → Nat) (fuel status : Nat)
      (body : String),
      (status = 429 ∨ status = 503) → a < MAX_RETRIES →
      oracle a = AttemptOutcome.response status body ra →
      callAiAux oracle jitter a (fuel + 1) =
        { calls := (callAiAux oracle jitter (a + 1) fuel).calls + 1,
          waits := computeWaitMs a ra body (jitter a) ::
            (callAiAux oracle jitter (a + 1) fuel).waits,
          result := (callAiAux oracle jitter (a + 1) fuel).result }) := by
  refine ⟨?_, ?_, ?_, rfl, rfl, ?_⟩
  · intro m hm
    rw [computeWaitMs_eq, hm]
  · intro hnone mi hmi
    rw [computeWaitMs_eq, hnone, hmi]
  · intro hnone hhdr
    rw [computeWaitMs_eq, hnone, hhdr]
  · intro oracle jitter fuel status body hst ha ho
    have h2xx : ¬(200 ≤ status ∧ status ≤ 299) := by
      rcases hst with rfl | rfl <;> omega
    have hretry : (status = 429 ∨ status = 503) ∧ a < MAX_RETRIES := ⟨hst, ha⟩
    simp only [callAiAux, ho, if_neg h2xx, if_pos hretry]

theorem c5_wait_precedence_witness :
    computeWaitMs 0 (some "2") "retry in 5.5s" 100 = ((5500 : Nat) : Int) ∧
    computeWaitMs 1 (some "2") "service busy" 100 = 2000 ∧
    computeWaitMs 2 (some "") "service busy" 123 = ((BASE_DELAY * 2 ^ 2 + 123 : Nat) : Int) :=
  ⟨(c5_wait_precedence 0 (some "2") "retry in 5.5s" 100).1 5500 rfl,
   (c5_wait_precedence 1 (some "2") "service busy" 100).2.1 rfl 2000 rfl,
   (c5_wait_precedence 2 (some "") "service busy" 123).2.2.1 rfl rfl⟩

/-- In a list whose first opening brace sits `d` positions into a scan that
started `k` positions into the whole input, the brace-regex scan matched
against a last closing brace beyond that position succeeds exactly
there. -/
theorem braceScanAux_finds (j : Nat) :
    ∀ (tail : List Char) (k d : Nat),
      firstIdxOf '\x7b' tail = some d → k + d < j →
      braceScanAux (some j) tail k = some (k + d, j) := by
  intro tail
  induction tail with
  | nil => intro k d h _; simp [firstIdxOf] at h
  | cons c rest ih =>
    intro k d h hlt
    by_cases hc : c = '\x7b'
    · rw [firstIdxOf, if_pos hc] at h
      injection h with h0
      subst h0
      rw [braceScanAux, if_pos hc]
      show (if k < j then some (k, j) else braceScanAux (some j) rest (k + 1)) =
        some (k + 0, j)
      rw [if_pos (by omega : k < j)]
      simp
    · rw [firstIdxOf, if_neg hc] at h
      cases hf : firstIdxOf '\x7b' rest with
      | none => rw [hf] at h; simp at h
      | some d2 =>
        rw [hf] at h
        simp only [Option.map_some'] at h
        injection h with h2
        rw [braceScanAux, if_neg hc]
        rw [ih (k + 1) d2 hf (by omega)]
        congr 2
        omega

/-- C6: extraction takes the substring from the first opening brace to the
last closing brace inclusive (the leftmost greedy match of the regex) and
parses it as JSON; in particular, on
`preamble {"validationRules":["a"]} trailing` it yields exactly the
object `{"validationRules":["a"]}`. -/
theorem c6_greedy_extraction :
    (∀ (s : String) (i j : Nat),
      firstIdxOf '\x7b' s.toList = some i →
      lastIdxOf '\x7d' s.toList = some j →
      i < j →
      extractJsonFromReply s =
        jsonParse (((s.toList.drop i).take (j - i + 1)).asString)) ∧
    extractJsonFromReply "preamble \x7b\"validationRules\":[\"a\"]\x7d trailing" =
      some (JsVal.obj [("validationRules", JsVal.arr [JsVal.str "a"])]) := by
  constructor
  · intro s i j hf hl hij
    unfold extractJsonFromReply regexBraceMatch
    rw [hl]
    have hs := braceScanAux_finds j s.toList 0 i hf (by omega)
    rw [Nat.zero_add] at hs
    rw [hs]
    rfl
  · rfl

theorem c6_greedy_extraction_witness :
    extractJsonFromReply "x\x7by\x7dz" =
      jsonParse ((("x\x7by\x7dz".toList.drop 1).take 3).asString) :=
  c6_greedy_extraction.1 "x\x7by\x7dz" 1 3 rfl rfl (by omega)

/-- C7: whenever `callAi` returns a reply text whose interpreted model
reply is a string from which no JSON object can be extracted (no brace
match, or the matched substring does not parse), the handler returns 500
with `error: "Invalid AI response format"` and the reply echoed under
`raw`. -/
theorem c7_unparsable_reply_500 (env : Env) (oracle : Nat → AttemptOutcome)
    (jitter : Nat → Nat) (syntaxMsg : String → String)
    (bodyText p key text reply : String) (v : JsVal)
    (hparse : jsonParse bodyText = some v)
    (hprompt : promptOf v = some p)
    (hnomock : useMockOf env = false)
    (hkey : keyOf env = some key) (hk : ¬key = "")
    (hok : (callAi (mkFullPrompt p) key oracle jitter).result = Except.ok text)
    (hreply : replyValOf text = JsVal.str reply)
    (hext : extractJsonFromReply reply = none) :
    POST env oracle jitter syntaxMsg bodyText =
      { status := 500,
        body := JsVal.obj [("error", JsVal.str "Invalid AI response format"),
                           ("raw", JsVal.str reply)],
        outboundCalls := (callAi (mkFullPrompt p) key oracle jitter).calls } := by
  simp only [POST, hparse, hprompt, postWithPrompt, hnomock, Bool.false_eq_true,
    if_false, hkey, if_neg hk, respondFromTrace, hok, respondOk, hreply, hext]

theorem c7_unparsable_reply_500_witness :
    POST envKeyed oracle200NoBraces jitterZero syntaxMsgLegacy promptBody =
      { status := 500,
        body := JsVal.obj [("error", JsVal.str "Invalid AI response format"),
                           ("raw", JsVal.str "no braces at all")],
        outboundCalls :=
          (callAi (mkFullPrompt "x") "k" oracle200NoBraces jitterZero).calls } :=
  c7_unparsable_reply_500 envKeyed oracle200NoBraces jitterZero syntaxMsgLegacy
    promptBody "x" "k" "no braces at all" "no braces at all"
    (JsVal.obj [("prompt", JsVal.str "x")]) rfl rfl rfl rfl (by decide) rfl rfl rfl

/-- C8: any 2xx response terminates the loop at once with the raw body
text and exactly one `fetch` made by that iteration and none after; on
the concrete schedule [503, 503, 200] exactly 3 outbound calls happen and
the 200 body comes back unchanged. -/
theorem c8_success_returns_body :
    (∀ (oracle : Nat → AttemptOutcome) (jitter : Nat → Nat) (a fuel status : Nat)
      (body : String) (ra : Option String),
      oracle a = AttemptOutcome.response status body ra → 200 ≤ status → status ≤ 299 →
      callAiAux oracle jitter a (fuel + 1) =
        { calls := 1, waits := [], result := Except.ok body }) ∧
    (callAi "p" "k" oracle553 jitterZero).calls = 3 ∧
    (callAi "p" "k" oracle553 jitterZero).result = Except.ok "final-body" := by
  refine ⟨?_, rfl, rfl⟩
  intro oracle jitter a fuel status body ra ho h1 h2
  simp only [callAiAux, ho, if_pos (And.intro h1 h2)]

theorem c8_success_returns_body_witness :
    callAiAux oracle2xx jitterZero 0 (3 + 1) =
      { calls := 1, waits := [], result := Except.ok "hello" } :=
  c8_success_returns_body.1 oracle2xx jitterZero 0 3 200 "hello" none rfl
    (by omega) (by omega)

/-- C9: a timed-out (aborted) non-final attempt sleeps exactly
`1000 * 2^attempt` ms — no jitter term — before the next attempt; a run
in which all 4 attempts time out makes 4 calls, waits [1000, 2000, 4000],
fails with the timeout error, and the handler maps it to a 504 with
`error: "AI request timed out"` (shown with a non-zero jitter draw to
witness that no jitter enters the waits). -/
theorem c9_timeout_backoff_and_504 :
    (∀ (oracle : Nat → AttemptOutcome) (jitter : Nat → Nat) (a fuel : Nat),
      oracle a = AttemptOutcome.timeout → a < MAX_RETRIES →
      callAiAux oracle jitter a (fuel + 1) =
        { calls := (callAiAux oracle jitter (a + 1) fuel).calls + 1,
          waits := ((BASE_DELAY * 2 ^ a : Nat) : Int) ::
            (callAiAux oracle jitter (a + 1) fuel).waits,
          result := (callAiAux oracle jitter (a + 1) fuel).result }) ∧
    callAi "p" "k" oracleTimeout jitterSeven =
      { calls := 4, waits := [1000, 2000, 4000], result := Except.error CallErr.timedOut } ∧
    POST envKeyed oracleTimeout jitterSeven syntaxMsgLegacy promptBody =
      { status := 504, body := errorBody "AI request timed out", outboundCalls := 4 } := by
  refine ⟨?_, rfl, rfl⟩
  intro oracle jitter a fuel ho ha
  simp only [callAiAux, ho, if_pos ha]

theorem c9_timeout_backoff_and_504_witness :
    callAiAux oracleTimeout jitterSeven 0 (3 + 1) =
      { calls := (callAiAux oracleTimeout jitterSeven 1 3).calls + 1,
        waits := ((BASE_DELAY * 2 ^ 0 : Nat) : Int) ::
          (callAiAux oracleTimeout jitterSeven 1 3).waits,
        result := (callAiAux oracleTimeout jitterSeven 1 3).result } :=
  c9_timeout_backoff_and_504.1 oracleTimeout jitterSeven 0 3 rfl (by decide)

/-- C10 counterexample: the claim says every invalid-JSON body yields the
generic 500 `Server error`.  But the `SyntaxError` from `req.json()` goes
through the top-level catch's message inspection, and on current V8/Node
the message embeds the body snippet: for the raw body `timed out` the
message is `Unexpected token 'i', "timed out" is not valid JSON`, which
satisfies `includes("timed out")`, so the handler returns 504 — with no
outbound call, but not the claimed 500. -/
theorem c10_counterexample :
    jsonParse "timed out" = none ∧
    strIncludes v8MsgTimedOut "timed out" = true ∧
    POST envKeyed oracle403 jitterZero syntaxMsgV8TimedOut "timed out" =
      { status := 504, body := errorBody "AI request timed out", outboundCalls := 0 } :=
  ⟨rfl, rfl, rfl⟩

/-- C10 amended: a request body that is not valid JSON makes `req.json()`
throw before the prompt check, with no outbound call, and the handler
applies the top-level catch's message classification to the runtime's
`SyntaxError` message: the generic 500 `Server error` when that message
contains neither `timed out` nor `AI API error` (as on legacy runtimes,
whose message carries no body snippet), but 504 when it contains
`timed out` and 502 when it contains `AI API error` — which a
body-snippet-embedding runtime can produce from the body itself. -/
theorem c10_invalid_json_body_classified (env : Env) (oracle : Nat → AttemptOutcome)
    (jitter : Nat → Nat) (syntaxMsg : String → String) (bodyText : String)
    (h : jsonParse bodyText = none) :
    (strIncludes (syntaxMsg bodyText) "timed out" = false →
      strIncludes (syntaxMsg bodyText) "AI API error" = false →
      POST env oracle jitter syntaxMsg bodyText =
        { status := 500, body := errorBody "Server error", outboundCalls := 0 }) ∧
    (strIncludes (syntaxMsg bodyText) "timed out" = true →
      POST env oracle jitter syntaxMsg bodyText =
        { status := 504, body := errorBody "AI request timed out", outboundCalls := 0 }) ∧
    (strIncludes (syntaxMsg bodyText) "timed out" = false →
      strIncludes (syntaxMsg bodyText) "AI API error" = true →
      POST env oracle jitter syntaxMsg bodyText =
        { status := 502,
          body := JsVal.obj [("error", JsVal.str "AI API error"),
                             ("details", JsVal.str (syntaxMsg bodyText))],
          outboundCalls := 0 }) := by
  refine ⟨fun h1 h2 => ?_, fun h1 => ?_, fun h1 h2 => ?_⟩
  · simp [POST, h, respondErr, h1, h2]
  · simp [POST, h, respondErr, h1]
  · simp [POST, h, respondErr, h1, h2]

theorem c10_invalid_json_body_classified_witness :
    POST envKeyed oracle403 jitterZero syntaxMsgLegacy "not json" =
      { status := 500, body := errorBody "Server error", outboundCalls := 0 } ∧
    POST envKeyed oracle403 jitterZero syntaxMsgV8TimedOut "timed out" =
      { status := 504, body := errorBody "AI request timed out", outboundCalls := 0 } :=
  ⟨(c10_invalid_json_body_classified envKeyed oracle403 jitterZero syntaxMsgLegacy
      "not json" rfl).1 rfl rfl,
   (c10_invalid_json_body_classified envKeyed oracle403 jitterZero syntaxMsgV8TimedOut
      "timed out" rfl).2.1 rfl⟩

end AiFormValidator
